import Mathlib

/-!
Shallow embedding of the NoteMind-AI quiz lifecycle (backend/app/api/quiz.py,
backend/app/services/gemini_service.py, backend/app/models/quiz.py) and proofs
about it.

Conventions of the embedding:
* Python dicts parsed from JSON are modelled structurally; a JSON value type
  `JVal` is used where a claim is about the serialized output itself.
* Python floats are modelled as rationals; `round(x, 2)` is modelled by
  `round2` (round half away from even differs only on exact half-cent ties,
  which no claim depends on).
* `datetime` values are modelled as integers (epoch instants); `str.strip()` /
  `str.lower()` are modelled on the ASCII range actually exercised.
* The SQLAlchemy session is modelled by explicit lists of rows; the UNIQUE
  constraint on quiz_results.quiz_id (models/quiz.py line 25, created by
  migration 003 via QuizResult.__table__.create) is enforced at commit time.
* HTTP errors are exceptions carrying status_code and detail, as in FastAPI.
-/

/-- A JSON value, used to talk about the serialized shape of responses. -/
inductive JVal where
  | str (s : String)
  | num (n : Int)
  | jnull
  | arr (elems : List JVal)
  | obj (fields : List (String × JVal))

mutual

/-- Does the key `k` occur anywhere (recursively) in the JSON value? -/
def JVal.hasKey (k : String) : JVal → Bool
  | .str _ => false
  | .num _ => false
  | .jnull => false
  | .arr elems => JVal.listHasKey k elems
  | .obj fields => JVal.fieldsHaveKey k fields

/-- Does `k` occur in any element of the list? -/
def JVal.listHasKey (k : String) : List JVal → Bool
  | [] => false
  | v :: rest => v.hasKey k || JVal.listHasKey k rest

/-- Does `k` occur as a key of a field, or inside any field value? -/
def JVal.fieldsHaveKey (k : String) : List (String × JVal) → Bool
  | [] => false
  | (k', v) :: rest => k' == k || v.hasKey k || JVal.fieldsHaveKey k rest

end

/-- The characters stripped by Python `str.strip()` with no argument
(restricted to the ASCII whitespace range). -/
def pyWhitespace (c : Char) : Bool :=
  c == ' ' || c == '\t' || c == '\n' || c == '\r' || c == '\x0b' || c == '\x0c'

/-- Python `s.strip()`: drop leading and trailing whitespace. -/
def pyStrip (s : String) : String :=
  String.mk (((s.data.dropWhile pyWhitespace).reverse.dropWhile pyWhitespace).reverse)

/-- Python `s.lower()` on the ASCII range. -/
def pyLower (s : String) : String :=
  String.mk (s.data.map Char.toLower)

/-- The case-insensitive, whitespace-trimmed comparison
`a.strip().lower() == b.strip().lower()` used by shared-quiz grading
(quiz.py line 761). -/
def pyNormEq (a b : String) : Bool :=
  pyLower (pyStrip a) == pyLower (pyStrip b)

/-- Python `round(x, 2)` on the exact rational value. -/
def round2 (q : ℚ) : ℚ :=
  (round (q * 100) : ℤ) / 100

/-- FastAPI `HTTPException(status_code, detail)`. -/
structure HTTPException where
  status_code : Nat
  detail : String
deriving DecidableEq

/-- One option of a multiple-choice question (schemas/quiz.py `QuizOption`,
also the shape the generation prompt requests from the AI). -/
structure QuizOption where
  id : String
  text : String
deriving DecidableEq

/-- A question as stored in the authoritative copy: the dict parsed from the
AI response (gemini_service.generate_quiz) and kept in `quiz_storage` /
`questions_data` / `correct_answers_data`.  `options` and `correct_answer`
are `Option` to model presence of the JSON key. -/
structure StoredQuestion where
  id : String
  question : String
  type : String
  options : Option (List QuizOption) := none
  correct_answer : Option String := none
deriving DecidableEq

/-- Serialization of a stored question back to JSON (as stored, i.e. with
`correct_answer` still present when the key exists). -/
def StoredQuestion.toJson (q : StoredQuestion) : JVal :=
  .obj ([("id", .str q.id), ("question", .str q.question), ("type", .str q.type)]
    ++ (match q.options with
        | some opts =>
          [("options", .arr (opts.map (fun o =>
              .obj [("id", .str o.id), ("text", .str o.text)])))]
        | none => [])
    ++ (match q.correct_answer with
        | some ca => [("correct_answer", .str ca)]
        | none => []))

/-- An answer submitted for one question (schemas/quiz.py `UserAnswer`). -/
structure UserAnswer where
  question_id : String
  answer : String
deriving DecidableEq

/-- schemas/quiz.py `QuestionCorrection`. -/
structure QuestionCorrection where
  question_id : String
  question : String
  user_answer : String
  correct_answer : String
  is_correct : Bool
  explanation : String
  score : ℚ
deriving DecidableEq

/-- schemas/quiz.py `QuizCorrectionResponse` (the `created_at` timestamp is
omitted: it is `datetime.utcnow()` at response time and no claim refers
to it). -/
structure QuizCorrectionResponse where
  quiz_id : String
  total_questions : Nat
  correct_answers : Nat
  score_percentage : ℚ
  corrections : List QuestionCorrection
  overall_feedback : String
deriving DecidableEq

/-- The public projection of a question (schemas/quiz.py `QuizQuestion` as
populated by the answer-stripping loops; the `correct_answer` attribute of
the pydantic model is left at `None` by those loops and is not part of the
projection). -/
structure QuizQuestionOut where
  id : String
  question : String
  type : String
  options : Option (List QuizOption) := none
deriving DecidableEq

/-- Serialization of the public projection. -/
def QuizQuestionOut.toJson (q : QuizQuestionOut) : JVal :=
  .obj ([("id", .str q.id), ("question", .str q.question), ("type", .str q.type)]
    ++ (match q.options with
        | some opts =>
          [("options", .arr (opts.map (fun o =>
              .obj [("id", .str o.id), ("text", .str o.text)])))]
        | none => []))

/-- schemas/quiz.py `QuizResponse` (again without the timestamp). -/
structure QuizResponse where
  quiz_id : String
  document_ids : List Nat
  questions : List QuizQuestionOut
  question_count : Nat
  question_type : String
  difficulty : String
deriving DecidableEq

/-- A value of the in-memory `quiz_storage` dict (quiz.py lines 99-108). -/
structure QuizStorageEntry where
  document_ids : List Nat
  file_ids : List String
  questions : List StoredQuestion
  question_count : Nat
  question_type : String
  difficulty : String
  user_id : Nat
deriving DecidableEq

/-- The `quiz_storage` dict: an association list keyed by quiz id. -/
def QuizStorage := List (String × QuizStorageEntry)

/-- Dict lookup `quiz_storage[quiz_id]` (keys are unique in a dict). -/
def lookupStorage (storage : QuizStorage) (quizId : String) :
    Option QuizStorageEntry :=
  (storage.find? (fun p => p.1 == quizId)).map (fun p => p.2)

/-- A row of the `quiz_results` table (models/quiz.py `QuizResult`).  The
JSON text columns `questions_data` / `corrections_data` are modelled
structurally; `id` is the surrogate key. -/
structure QuizResultRow where
  id : Nat
  quiz_id : String
  user_id : Nat
  question_count : Nat
  question_type : String
  difficulty : String
  total_questions : Nat
  correct_answers : Nat
  score_percentage : ℚ
  questions_data : List StoredQuestion
  corrections_data : List QuestionCorrection
  overall_feedback : String
deriving DecidableEq

/-- A row of the `shared_quizzes` table (models/quiz.py `SharedQuiz`). -/
structure SharedQuizRow where
  id : Nat
  share_token : String
  quiz_id : String
  user_id : Nat
  questions_data : List StoredQuestion
  correct_answers_data : List StoredQuestion
  question_count : Nat
  question_type : String
  difficulty : String
  view_count : Nat
  completion_count : Nat
  is_active : Bool
  expires_at : Option Int := none
deriving DecidableEq

/-! ### gemini_service.generate_quiz: mixed split and count tolerance -/

/-- The 70/30 split computed for `question_type == "mixed"`
(gemini_service.py lines 376-388).  `int(question_count * 0.7)` is modelled
by natural division `7 * n / 10`; the two agree for every
`question_count` in 1..20 (the admissible range of the request schema),
which `floatTruncAgrees` certifies pointwise. -/
def mixedSplit (question_count : Nat) : Nat × Nat :=
  let mc_count := 7 * question_count / 10
  let oe_count := question_count - mc_count
  if 2 ≤ question_count then
    if mc_count = 0 then (1, question_count - 1)
    else if oe_count = 0 then (question_count - 1, 1)
    else (mc_count, oe_count)
  else (mc_count, oe_count)

/-- The float expression `int(question_count * 0.7)` evaluated on every
admissible count: IEEE-754 double rounding makes `10 * 0.7` and `20 * 0.7`
land exactly on 7.0 and 14.0, so truncation equals `7 * n / 10` on all of
1..20.  The table lists the truncated float results in order for n = 1..20. -/
def mixedFloatTable : List Nat :=
  [0, 1, 2, 2, 3, 4, 4, 5, 6, 7, 7, 8, 9, 9, 10, 11, 11, 12, 13, 14]

/-- On the schema-admissible range the natural-division model agrees with
the float truncation table. -/
theorem floatTruncAgrees :
    ∀ n, 1 ≤ n → n ≤ 20 → mixedFloatTable.get? (n - 1) = some (7 * n / 10) := by
  decide

/-- The question-count tolerance policy (gemini_service.py lines 459-468):
an over-long AI question list is truncated to the requested count, a short
one is accepted as-is (with only a logged warning). -/
def applyCountTolerance (questions : List StoredQuestion) (question_count : Nat) :
    List StoredQuestion :=
  if question_count < questions.length then questions.take question_count
  else questions

/-! ### Answer-stripping projections -/

/-- The projection built by `generate_quiz` (quiz.py lines 111-120): keep
id, question and type; keep options only for multiple-choice questions. -/
def generateProjection (q : StoredQuestion) : QuizQuestionOut :=
  { id := q.id, question := q.question, type := q.type,
    options := if q.type == "multiple_choice" then q.options else none }

/-- The projection built by `get_shared_quiz` (quiz.py lines 685-693): keep
options only when the question is multiple-choice and the key is present. -/
def sharedProjection (q : StoredQuestion) : QuizQuestionOut :=
  { id := q.id, question := q.question, type := q.type,
    options := if q.type == "multiple_choice" && q.options.isSome
               then q.options else none }

/-! ### submit_quiz (authenticated path) -/

/-- One element of `correction_data["corrections"]` as returned by the
delegated AI capability (gemini_service.correct_quiz). -/
structure RawCorrection where
  question_id : String
  question : String
  user_answer : String
  correct_answer : String
  is_correct : Bool
  explanation : String
  score : ℚ
deriving DecidableEq

/-- The parsed AI correction payload. -/
structure CorrectionData where
  corrections : List RawCorrection
  overall_feedback : String := ""
deriving DecidableEq

/-- The field-by-field copy into `QuestionCorrection` (quiz.py lines 186-194). -/
def toQuestionCorrection (c : RawCorrection) : QuestionCorrection :=
  { question_id := c.question_id, question := c.question,
    user_answer := c.user_answer, correct_answer := c.correct_answer,
    is_correct := c.is_correct, explanation := c.explanation, score := c.score }

/-- `correct_count` after the statistics loop (quiz.py lines 196-197). -/
def submitCorrectCount (cd : CorrectionData) : Nat :=
  (cd.corrections.filter (fun c => c.is_correct)).length

/-- `total_score` after the statistics loop (quiz.py line 198). -/
def submitTotalScore (cd : CorrectionData) : ℚ :=
  (cd.corrections.map (fun c => c.score)).sum

/-- `score_percentage` (quiz.py line 200): average score times 100, or 0
for an empty corrections list. -/
def submitScorePct (cd : CorrectionData) : ℚ :=
  if cd.corrections.isEmpty then 0
  else (submitTotalScore cd / (cd.corrections.length : ℚ)) * 100

/-- The `QuizResult` row built at quiz.py lines 203-216 (the document
association of lines 218-220 carries no claim-relevant state and the
surrogate id stands in for autoincrement). -/
def mkResultRow (db : List QuizResultRow) (userId : Nat) (quizId : String)
    (entry : QuizStorageEntry) (cd : CorrectionData) : QuizResultRow :=
  { id := db.length + 1,
    quiz_id := quizId,
    user_id := userId,
    question_count := entry.question_count,
    question_type := entry.question_type,
    difficulty := entry.difficulty,
    total_questions := (cd.corrections.map toQuestionCorrection).length,
    correct_answers := submitCorrectCount cd,
    score_percentage := round2 (submitScorePct cd),
    questions_data := entry.questions,
    corrections_data := cd.corrections.map toQuestionCorrection,
    overall_feedback := cd.overall_feedback }

/-- The `QuizCorrectionResponse` built at quiz.py lines 226-234. -/
def mkSubmitResponse (quizId : String) (cd : CorrectionData) : QuizCorrectionResponse :=
  { quiz_id := quizId,
    total_questions := (cd.corrections.map toQuestionCorrection).length,
    correct_answers := submitCorrectCount cd,
    score_percentage := round2 (submitScorePct cd),
    corrections := cd.corrections.map toQuestionCorrection,
    overall_feedback := cd.overall_feedback }

/-- `submit_quiz` (quiz.py lines 139-241).  The delegated AI correction call
is a parameter (`ai`): `.error e` models the call or its response parsing
raising, which the endpoint turns into a rollback plus a 500 with the cause
appended.  The UNIQUE constraint on quiz_results.quiz_id fires at
`db.commit()`; the resulting IntegrityError is caught by the same handler,
so the insert is rolled back and a 500 is returned.  The result is the
response (or error) together with the quiz_storage and quiz_results states
after the call. -/
def submit_quiz (storage : QuizStorage) (db : List QuizResultRow)
    (userId : Nat) (quizId : String) (ai : Except String CorrectionData) :
    Except HTTPException QuizCorrectionResponse × QuizStorage × List QuizResultRow :=
  match lookupStorage storage quizId with
  | none => (.error ⟨404, "Quiz not found or expired"⟩, storage, db)
  | some entry =>
    if entry.user_id ≠ userId then
      (.error ⟨403, "Not authorized to submit this quiz"⟩, storage, db)
    else
      match ai with
      | .error e =>
        (.error ⟨500, "Failed to correct quiz: " ++ e⟩, storage, db)
      | .ok cd =>
        if db.any (fun r => r.quiz_id == quizId) then
          (.error ⟨500, "Failed to correct quiz: UNIQUE constraint failed: quiz_results.quiz_id"⟩,
           storage, db)
        else
          (.ok (mkSubmitResponse quizId cd),
           storage, db ++ [mkResultRow db userId quizId entry cd])

/-! ### delete_quiz -/

/-- `delete_quiz` (quiz.py lines 244-272). -/
def delete_quiz (storage : QuizStorage) (userId : Nat) (quizId : String) :
    Except HTTPException Unit × QuizStorage :=
  match lookupStorage storage quizId with
  | none => (.error ⟨404, "Quiz not found"⟩, storage)
  | some entry =>
    if entry.user_id ≠ userId then
      (.error ⟨403, "Not authorized to delete this quiz"⟩, storage)
    else
      (.ok (), storage.filter (fun p => p.1 ≠ quizId))

/-! ### Quiz download -/

/-- The `quiz_data` dict assembled by `download_quiz_questions`
(quiz.py lines 400-407 and 421-429); the `created_at` isoformat string is
omitted (no claim refers to it). -/
structure QuizDownloadData where
  quiz_id : String
  questions : List StoredQuestion
  question_type : String
  difficulty : String
  question_count : Nat
deriving DecidableEq

/-- JSON serialization of `quiz_data` as returned by the `format == "json"`
branch (quiz.py lines 432-433): the stored questions are serialized verbatim. -/
def quizDataJson (d : QuizDownloadData) : JVal :=
  .obj [("quiz_id", .str d.quiz_id),
        ("questions", .arr (d.questions.map StoredQuestion.toJson)),
        ("question_type", .str d.question_type),
        ("difficulty", .str d.difficulty),
        ("question_count", .num d.question_count)]

/-- What a download endpoint returns: the JSON body, or a rendered file.
The Markdown/PDF renderers (quiz_export_service) are the spec's external
"Export Renderer" collaborator; the embedding records exactly what the
endpoint passes to them, in particular the hard-coded
`include_answers=False` of quiz.py lines 435 and 444. -/
inductive DownloadBody where
  | jsonBody (v : JVal)
  | renderedQuiz (format : String) (data : QuizDownloadData) (include_answers : Bool)
  | renderedResults (format : String) (corrections : List QuestionCorrection)
      (score_percentage : ℚ) (correct_answers : Nat) (total_questions : Nat)
      (overall_feedback : String)

/-- The allowed download formats (quiz.py lines 384 and 474). -/
def allowedFormats : List String := ["json", "markdown", "md", "pdf"]

/-- `download_quiz_questions` (quiz.py lines 364-451). -/
def download_quiz_questions (storage : QuizStorage) (results : List QuizResultRow)
    (userId : Nat) (quizId : String) (format : String) :
    Except HTTPException DownloadBody :=
  if ¬ allowedFormats.contains format then
    .error ⟨400, "Invalid format. Supported formats: json, markdown, pdf"⟩
  else
    match lookupStorage storage quizId with
    | some entry =>
      if entry.user_id ≠ userId then
        .error ⟨403, "Not authorized to download this quiz"⟩
      else
        let d : QuizDownloadData :=
          { quiz_id := quizId, questions := entry.questions,
            question_type := entry.question_type, difficulty := entry.difficulty,
            question_count := entry.question_count }
        if format == "json" then .ok (.jsonBody (quizDataJson d))
        else .ok (.renderedQuiz format d false)
    | none =>
      match results.find? (fun r => r.quiz_id == quizId && r.user_id == userId) with
      | none => .error ⟨404, "Quiz not found"⟩
      | some r =>
        let d : QuizDownloadData :=
          { quiz_id := quizId, questions := r.questions_data,
            question_type := r.question_type, difficulty := r.difficulty,
            question_count := r.question_count }
        if format == "json" then .ok (.jsonBody (quizDataJson d))
        else .ok (.renderedQuiz format d false)

/-- JSON serialization of one correction, for the results download body. -/
def correctionJson (c : QuestionCorrection) : JVal :=
  .obj [("question_id", .str c.question_id), ("question", .str c.question),
        ("user_answer", .str c.user_answer), ("correct_answer", .str c.correct_answer),
        ("is_correct", .str (toString c.is_correct)),
        ("explanation", .str c.explanation),
        ("score", .str (toString c.score))]

/-- `download_quiz_results` (quiz.py lines 454-543). -/
def download_quiz_results (results : List QuizResultRow)
    (userId : Nat) (resultId : Nat) (format : String) :
    Except HTTPException DownloadBody :=
  if ¬ allowedFormats.contains format then
    .error ⟨400, "Invalid format. Supported formats: json, markdown, pdf"⟩
  else
    match results.find? (fun r => r.id == resultId && r.user_id == userId) with
    | none => .error ⟨404, "Quiz result not found"⟩
    | some r =>
      if format == "json" then
        .ok (.jsonBody (.obj
          [("quiz_id", .str r.quiz_id),
           ("score_percentage", .str (toString r.score_percentage)),
           ("correct_answers", .num r.correct_answers),
           ("total_questions", .num r.total_questions),
           ("corrections", .arr (r.corrections_data.map correctionJson)),
           ("overall_feedback", .str r.overall_feedback)]))
      else
        .ok (.renderedResults format r.corrections_data r.score_percentage
          r.correct_answers r.total_questions r.overall_feedback)

/-! ### Shared quiz endpoints -/

/-- The SQL filter of both anonymous endpoints (quiz.py lines 659-662 and
723-726): token match and `is_active == True`; `.first()` is modelled by
`List.find?` over the table rows. -/
def sharedQuery (token : String) (s : SharedQuizRow) : Bool :=
  s.share_token == token && s.is_active

/-- The expiry test (quiz.py lines 671 and 735):
`shared_quiz.expires_at and shared_quiz.expires_at < datetime.utcnow()`. -/
def sharedExpired (s : SharedQuizRow) (now : Int) : Bool :=
  match s.expires_at with
  | some t => decide (t < now)
  | none => false

/-- `get_shared_quiz` (quiz.py lines 644-703), returning the response (or
error) and the shared_quizzes table after the view-count commit. -/
def get_shared_quiz (shares : List SharedQuizRow) (token : String) (now : Int) :
    Except HTTPException QuizResponse × List SharedQuizRow :=
  match shares.find? (sharedQuery token) with
  | none => (.error ⟨404, "Shared quiz not found or inactive"⟩, shares)
  | some s =>
    if sharedExpired s now then
      (.error ⟨410, "This quiz has expired"⟩, shares)
    else
      let shares' := shares.map (fun r =>
        if r.id == s.id then { r with view_count := r.view_count + 1 } else r)
      (.ok { quiz_id := "shared_" ++ token,
             document_ids := [],
             questions := s.questions_data.map sharedProjection,
             question_count := s.question_count,
             question_type := s.question_type,
             difficulty := s.difficulty },
       shares')

/-- The `correct_answers_map` dict comprehension of quiz.py lines 746-749
followed by `.get(question_id, "")`: only questions carrying the
`correct_answer` key contribute, and a later duplicate id overwrites an
earlier one (dict semantics), hence the last match wins. -/
def lookupCorrectAnswer (qs : List StoredQuestion) (qid : String) : String :=
  match (qs.filter (fun q => q.correct_answer.isSome && q.id == qid)).getLast? with
  | some q => q.correct_answer.getD ""
  | none => ""

/-- `next((q for q in questions_data if q["id"] == answer.question_id), None)`
(quiz.py line 756). -/
def findQuestion (qs : List StoredQuestion) (qid : String) : Option StoredQuestion :=
  qs.find? (fun q => q.id == qid)

/-- The body of the shared-grading loop for one submitted answer
(quiz.py lines 755-775): an answer whose question id matches no stored
question is skipped (`continue`); a matched answer is graded by the
trimmed, case-folded string comparison, with score 1 or 0 and no
explanation text. -/
def gradeAnswer (qs : List StoredQuestion) (a : UserAnswer) : Option QuestionCorrection :=
  match findQuestion qs a.question_id with
  | none => none
  | some q =>
    let ca := lookupCorrectAnswer qs a.question_id
    let ok := pyNormEq a.answer ca
    some { question_id := a.question_id, question := q.question,
           user_answer := a.answer, correct_answer := ca,
           is_correct := ok, explanation := "",
           score := if ok then 1 else 0 }

/-- The correction response assembled by `submit_shared_quiz`
(quiz.py lines 752-791): grade each submitted answer against the
authoritative copy, skipping unmatched ids, and aggregate. -/
def mkSharedResponse (token : String) (s : SharedQuizRow)
    (answers : List UserAnswer) : QuizCorrectionResponse :=
  let qs := s.correct_answers_data
  let corrections := answers.filterMap (gradeAnswer qs)
  let correct_count := (corrections.filter (fun c => c.is_correct)).length
  let score_percentage : ℚ :=
    if corrections.isEmpty then 0
    else ((correct_count : ℚ) / (corrections.length : ℚ)) * 100
  { quiz_id := "shared_" ++ token,
    total_questions := corrections.length,
    correct_answers := correct_count,
    score_percentage := round2 score_percentage,
    corrections := corrections,
    overall_feedback := "You scored " ++ toString correct_count ++ " out of "
      ++ toString corrections.length ++ " questions correctly!" }

/-- `submit_shared_quiz` (quiz.py lines 706-797), returning the response (or
error) and the shared_quizzes table after the completion-count commit. -/
def submit_shared_quiz (shares : List SharedQuizRow) (token : String)
    (answers : List UserAnswer) (now : Int) :
    Except HTTPException QuizCorrectionResponse × List SharedQuizRow :=
  match shares.find? (sharedQuery token) with
  | none => (.error ⟨404, "Shared quiz not found or inactive"⟩, shares)
  | some s =>
    if sharedExpired s now then
      (.error ⟨410, "This quiz has expired"⟩, shares)
    else
      let shares' := shares.map (fun r =>
        if r.id == s.id then { r with completion_count := r.completion_count + 1 } else r)
      (.ok (mkSharedResponse token s answers), shares')

/-- `delete_shared_quiz` (quiz.py lines 800-833); note the lookup here does
not filter on `is_active`. -/
def delete_shared_quiz (shares : List SharedQuizRow) (userId : Nat) (token : String) :
    Except HTTPException Unit × List SharedQuizRow :=
  match shares.find? (fun s => s.share_token == token) with
  | none => (.error ⟨404, "Shared quiz not found"⟩, shares)
  | some s =>
    if s.user_id ≠ userId then
      (.error ⟨403, "Not authorized to delete this shared quiz"⟩, shares)
    else
      (.ok (), shares.filter (fun r => r.id ≠ s.id))

/-! ### Observation helpers -/

/-- Whether a download result is a JSON body containing the key `k`
anywhere. -/
def downloadLeaks (k : String) : Except HTTPException DownloadBody → Bool
  | .ok (.jsonBody v) => v.hasKey k
  | _ => false

/-- The HTTP status of an erroring operation (none on success). -/
def exceptStatus {α : Type} : Except HTTPException α → Option Nat
  | .error e => some e.status_code
  | .ok _ => none

/-- The response of a successful stateful operation (none on error). -/
def respOf {σ : Type} (r : Except HTTPException QuizCorrectionResponse × σ) :
    Option QuizCorrectionResponse :=
  match r.1 with
  | .ok resp => some resp
  | .error _ => none

/-! ### Concrete instances used by witnesses and counterexamples -/

/-- A four-option multiple-choice option list. -/
def demoOptions : List QuizOption :=
  [⟨"A", "Rome"⟩, ⟨"B", "Paris"⟩, ⟨"C", "Berlin"⟩, ⟨"D", "Madrid"⟩]

/-- A stored multiple-choice question whose authoritative copy carries
`correct_answer = "B"`. -/
def demoQuestion : StoredQuestion :=
  { id := "q1", question := "Capital of France?", type := "multiple_choice",
    options := some demoOptions, correct_answer := some "B" }

/-- An open-ended stored question. -/
def demoOpenQ : StoredQuestion :=
  { id := "q2", question := "Justify the previous choice.", type := "open_ended",
    correct_answer := some "Because Paris is the seat of government." }

/-- Another open-ended stored question. -/
def demoOpenQ2 : StoredQuestion :=
  { id := "q3", question := "Name a river through that city.", type := "open_ended",
    correct_answer := some "Seine" }

/-- A quiz_storage entry owned by user 1. -/
def demoEntry : QuizStorageEntry :=
  { document_ids := [1], file_ids := ["file1"], questions := [demoQuestion],
    question_count := 1, question_type := "multiple_choice", difficulty := "easy",
    user_id := 1 }

/-- A quiz_storage dict holding one quiz, keyed "quiz1". -/
def demoStorage : QuizStorage := [("quiz1", demoEntry)]

/-- An AI correction payload with one correct and one incorrect answer. -/
def demoCorrectionData : CorrectionData :=
  { corrections :=
      [{ question_id := "q1", question := "Capital of France?", user_answer := "B",
         correct_answer := "B", is_correct := true,
         explanation := "Paris is the capital.", score := 1 },
       { question_id := "q2", question := "Justify the previous choice.",
         user_answer := "", correct_answer := "Because Paris is the seat of government.",
         is_correct := false, explanation := "No answer given.", score := 0 }],
    overall_feedback := "Keep practicing." }

/-- The padded, lower-case answer of the shared-grading scenario. -/
def demoPaddedAnswer : UserAnswer := ⟨"q1", " b "⟩

/-- The correction the shared grading produces for `demoPaddedAnswer`. -/
def demoPaddedCorrection : QuestionCorrection :=
  { question_id := "q1", question := "Capital of France?", user_answer := " b ",
    correct_answer := "B", is_correct := true, explanation := "", score := 1 }

/-- A deactivated share. -/
def demoInactiveShare : SharedQuizRow :=
  { id := 1, share_token := "tokA", quiz_id := "quiz1", user_id := 1,
    questions_data := [demoQuestion], correct_answers_data := [demoQuestion],
    question_count := 1, question_type := "multiple_choice", difficulty := "easy",
    view_count := 0, completion_count := 0, is_active := false, expires_at := none }

/-- An active share that expired at instant 10. -/
def demoExpiredShare : SharedQuizRow :=
  { id := 2, share_token := "tokB", quiz_id := "quiz1", user_id := 1,
    questions_data := [demoQuestion], correct_answers_data := [demoQuestion],
    question_count := 1, question_type := "multiple_choice", difficulty := "easy",
    view_count := 0, completion_count := 0, is_active := true, expires_at := some 10 }

/-- An active, never-expiring share owned by user 1 with three questions. -/
def demoLiveShare : SharedQuizRow :=
  { id := 3, share_token := "tk10", quiz_id := "quiz1", user_id := 1,
    questions_data := [demoQuestion, demoOpenQ, demoOpenQ2],
    correct_answers_data := [demoQuestion, demoOpenQ, demoOpenQ2],
    question_count := 3, question_type := "mixed", difficulty := "easy",
    view_count := 0, completion_count := 0, is_active := true, expires_at := none }

/-- A submission with a duplicate answer for q1 and an answer for an
unknown question id q9. -/
def demoSharedAnswers : List UserAnswer :=
  [⟨"q1", "B"⟩, ⟨"q1", "Rome"⟩, ⟨"q9", "B"⟩]

/-- A persisted quiz result owned by user 1 (surrogate id 1). -/
def demoResultRow : QuizResultRow :=
  { id := 1, quiz_id := "qz5", user_id := 1, question_count := 1,
    question_type := "mixed", difficulty := "easy", total_questions := 1,
    correct_answers := 1, score_percentage := 100,
    questions_data := [demoQuestion],
    corrections_data :=
      [{ question_id := "q1", question := "Capital of France?", user_answer := "B",
         correct_answer := "B", is_correct := true,
         explanation := "Paris is the capital.", score := 1 }],
    overall_feedback := "Good." }

/-- A three-question stored list for the count-tolerance witness. -/
def demoThreeQuestions : List StoredQuestion := [demoQuestion, demoOpenQ, demoOpenQ2]

/-! ### Helper lemmas -/

/-- `7/10 * n` has natural floor `7 * n / 10`. -/
theorem floorSevenTenths (n : Nat) : ⌊(7 : ℚ) / 10 * (n : ℚ)⌋₊ = 7 * n / 10 := by
  rw [div_mul_eq_mul_div]
  rw [show ((7 : ℚ) * (n : ℚ)) = ((7 * n : ℕ) : ℚ) by push_cast; ring]
  rw [show (10 : ℚ) = ((10 : ℕ) : ℚ) by norm_num]
  rw [Nat.floor_div_nat, Nat.floor_natCast]

/-! ### Claim C1 -/

/-- C1: the answer-hiding invariant is violated by the code.  Downloading a
quiz in `json` format returns the stored questions verbatim: the serialized
output of `download_quiz_questions` for a quiz whose authoritative copy
carries `correct_answer = "B"` contains a `correct_answer` field, even
though the projections built by `generate_quiz` and `get_shared_quiz` over
the same stored questions contain neither `correct_answer` nor
`explanation` anywhere. -/
theorem C1_download_json_leaks_answer_key :
    downloadLeaks "correct_answer"
      (download_quiz_questions demoStorage [] 1 "quiz1" "json") = true ∧
    JVal.listHasKey "correct_answer"
      ((demoEntry.questions.map generateProjection).map QuizQuestionOut.toJson) = false ∧
    JVal.listHasKey "correct_answer"
      ((demoEntry.questions.map sharedProjection).map QuizQuestionOut.toJson) = false ∧
    JVal.listHasKey "explanation"
      ((demoEntry.questions.map generateProjection).map QuizQuestionOut.toJson) = false := by
  refine ⟨?_, ?_, ?_, ?_⟩ <;> decide

/-! ### Claim C3 -/

/-- C3: every matched answer of an anonymous shared-quiz submission is
graded by the deterministic case-insensitive, whitespace-trimmed comparison
of the answer text against the stored authoritative correct answer; the
score is exactly 1 on a match and 0 otherwise, and the explanation text is
always empty. -/
theorem C3_shared_grading (qs : List StoredQuestion) (a : UserAnswer)
    (c : QuestionCorrection) (h : gradeAnswer qs a = some c) :
    (c.is_correct = true ↔
      pyLower (pyStrip a.answer) =
        pyLower (pyStrip (lookupCorrectAnswer qs a.question_id))) ∧
    c.score = (if c.is_correct then (1 : ℚ) else 0) ∧
    c.explanation = "" ∧
    c.correct_answer = lookupCorrectAnswer qs a.question_id ∧
    c.user_answer = a.answer := by
  unfold gradeAnswer at h
  cases hf : findQuestion qs a.question_id with
  | none => simp [hf] at h
  | some q =>
    simp only [hf] at h
    injection h with h
    subst h
    refine ⟨?_, ?_, rfl, rfl, rfl⟩
    · simp [pyNormEq]
    · rfl

/-- C3 witness: the documented scenario, a padded, mixed-case answer
`" b "` submitted against stored `correct_answer = "B"`, is graded correct
with score 1 and no explanation. -/
theorem C3_shared_grading_witness :
    gradeAnswer [demoQuestion] demoPaddedAnswer = some demoPaddedCorrection ∧
    demoPaddedCorrection.is_correct = true ∧
    demoPaddedCorrection.score = 1 ∧
    demoPaddedCorrection.explanation = "" := by
  have h : gradeAnswer [demoQuestion] demoPaddedAnswer = some demoPaddedCorrection := by
    decide
  have hp := C3_shared_grading [demoQuestion] demoPaddedAnswer demoPaddedCorrection h
  refine ⟨h, rfl, ?_, hp.2.2.1⟩
  rw [hp.2.1]
  rfl

/-! ### Claim C2 -/

/-- C2: for every authenticated submission that succeeds, the returned
score_percentage is `100 * (sum of per-question scores) / (number of
corrections)` rounded to two decimals (0 when there are no corrections),
correct_answers counts the corrections with is_correct, and the persisted
row carries the same aggregates. -/
theorem C2_score_aggregation (storage : QuizStorage) (db : List QuizResultRow)
    (userId : Nat) (quizId : String) (cd : CorrectionData)
    (resp : QuizCorrectionResponse) (storage' : QuizStorage) (db' : List QuizResultRow)
    (h : submit_quiz storage db userId quizId (.ok cd) = (.ok resp, storage', db')) :
    (cd.corrections ≠ [] →
      resp.score_percentage =
        round2 (100 * submitTotalScore cd / (cd.corrections.length : ℚ))) ∧
    (cd.corrections = [] → resp.score_percentage = 0) ∧
    resp.correct_answers = (cd.corrections.filter (fun c => c.is_correct)).length ∧
    resp.total_questions = cd.corrections.length ∧
    ∃ entry, lookupStorage storage quizId = some entry ∧
      db' = db ++ [mkResultRow db userId quizId entry cd] ∧
      (mkResultRow db userId quizId entry cd).score_percentage = resp.score_percentage ∧
      (mkResultRow db userId quizId entry cd).correct_answers = resp.correct_answers := by
  cases hq : lookupStorage storage quizId with
  | none => simp [submit_quiz, hq] at h
  | some entry =>
    simp only [submit_quiz, hq] at h
    by_cases ho : entry.user_id = userId
    · rw [if_neg (show ¬entry.user_id ≠ userId by simp [ho])] at h
      by_cases hdup : db.any (fun r => r.quiz_id == quizId) = true
      · rw [if_pos hdup] at h
        simp at h
      · rw [if_neg hdup] at h
        simp only [Prod.mk.injEq, Except.ok.injEq] at h
        obtain ⟨hresp, hst, hdb⟩ := h
        subst hresp
        subst hdb
        refine ⟨?_, ?_, rfl, ?_, entry, rfl, rfl, rfl, rfl⟩
        · intro hne
          show round2 (submitScorePct cd) = _
          congr 1
          rw [submitScorePct, if_neg (by simp [hne])]
          ring
        · intro he
          show round2 (submitScorePct cd) = 0
          rw [submitScorePct, if_pos (by simp [he])]
          simp [round2]
        · show (cd.corrections.map toQuestionCorrection).length = _
          simp
    · rw [if_pos ho] at h
      simp at h

/-- C2 witness: a two-question submission with scores 1 and 0 yields
correct_answers 1 and score_percentage 50. -/
theorem C2_score_aggregation_witness :
    demoCorrectionData.corrections ≠ [] ∧
    (mkSubmitResponse "quiz1" demoCorrectionData).score_percentage =
      round2 (100 * submitTotalScore demoCorrectionData /
        (demoCorrectionData.corrections.length : ℚ)) ∧
    (mkSubmitResponse "quiz1" demoCorrectionData).correct_answers = 1 ∧
    (mkSubmitResponse "quiz1" demoCorrectionData).score_percentage = 50 := by
  have h := C2_score_aggregation demoStorage [] 1 "quiz1" demoCorrectionData
    (mkSubmitResponse "quiz1" demoCorrectionData) demoStorage
    ([] ++ [mkResultRow [] 1 "quiz1" demoEntry demoCorrectionData]) rfl
  refine ⟨by decide, h.1 (by decide), ?_, ?_⟩
  · rw [h.2.2.1]
    decide
  · rw [h.1 (by decide)]
    norm_num [submitTotalScore, demoCorrectionData, round2, round_eq]

/-! ### Claim C6 -/

/-- C6: when the delegated AI correction call (or its response parsing)
fails, the authenticated submission fails as a whole with a 500 carrying
the cause, and both the quiz_results table and the session-registry dict
are left exactly as they were (rollback, no partial QuizResult). -/
theorem C6_ai_failure_rolls_back (storage : QuizStorage) (db : List QuizResultRow)
    (userId : Nat) (quizId : String) (e : String) (entry : QuizStorageEntry)
    (hq : lookupStorage storage quizId = some entry)
    (ho : entry.user_id = userId) :
    submit_quiz storage db userId quizId (.error e) =
      (.error ⟨500, "Failed to correct quiz: " ++ e⟩, storage, db) := by
  simp only [submit_quiz, hq]
  rw [if_neg (show ¬entry.user_id ≠ userId by simp [ho])]

/-- C6 witness: a concrete failing AI call surfaces as a 500 with the
cause in the detail and leaves registry and database unchanged. -/
theorem C6_ai_failure_witness :
    submit_quiz demoStorage [] 1 "quiz1" (.error "Gemini call failed") =
      (.error ⟨500, "Failed to correct quiz: Gemini call failed"⟩, demoStorage, []) := by
  have h := C6_ai_failure_rolls_back demoStorage [] 1 "quiz1" "Gemini call failed"
    demoEntry rfl rfl
  simpa using h

/-! ### Claim C4 -/

/-- C4: a share whose rows for the token are all inactive yields 404 from
both anonymous fetch and anonymous submit; a share found active whose
expires_at lies in the past yields the distinct 410 from both — while its
is_active flag is still true. -/
theorem C4_share_gating (shares : List SharedQuizRow) (token : String) (now : Int)
    (answers : List UserAnswer) :
    ((∀ s ∈ shares, s.share_token = token → s.is_active = false) →
      get_shared_quiz shares token now =
        (.error ⟨404, "Shared quiz not found or inactive"⟩, shares) ∧
      submit_shared_quiz shares token answers now =
        (.error ⟨404, "Shared quiz not found or inactive"⟩, shares)) ∧
    (∀ s t, shares.find? (sharedQuery token) = some s →
      s.expires_at = some t → t < now →
      s.is_active = true ∧
      get_shared_quiz shares token now =
        (.error ⟨410, "This quiz has expired"⟩, shares) ∧
      submit_shared_quiz shares token answers now =
        (.error ⟨410, "This quiz has expired"⟩, shares)) := by
  constructor
  · intro hall
    have hnone : shares.find? (sharedQuery token) = none := by
      rw [List.find?_eq_none]
      intro s hs
      unfold sharedQuery
      by_cases ht : s.share_token = token
      · simp [ht, hall s hs ht]
      · simp [ht]
    constructor
    · simp only [get_shared_quiz, hnone]
    · simp only [submit_shared_quiz, hnone]
  · intro s t hfind hexp ht
    have hq := List.find?_some hfind
    have hact : s.is_active = true := by
      unfold sharedQuery at hq
      exact (Bool.and_eq_true _ _ |>.mp hq).2
    have hex : sharedExpired s now = true := by
      unfold sharedExpired
      rw [hexp]
      simpa using ht
    refine ⟨hact, ?_, ?_⟩
    · simp only [get_shared_quiz, hfind]
      rw [if_pos hex]
    · simp only [submit_shared_quiz, hfind]
      rw [if_pos hex]

/-- C4 witness: a concrete deactivated share gets 404 from both anonymous
operations; a concrete still-active share that expired at instant 10,
queried at instant 20, gets 410 from both. -/
theorem C4_share_gating_witness :
    get_shared_quiz [demoInactiveShare] "tokA" 20 =
      (.error ⟨404, "Shared quiz not found or inactive"⟩, [demoInactiveShare]) ∧
    submit_shared_quiz [demoInactiveShare] "tokA" [] 20 =
      (.error ⟨404, "Shared quiz not found or inactive"⟩, [demoInactiveShare]) ∧
    demoExpiredShare.is_active = true ∧
    get_shared_quiz [demoExpiredShare] "tokB" 20 =
      (.error ⟨410, "This quiz has expired"⟩, [demoExpiredShare]) ∧
    submit_shared_quiz [demoExpiredShare] "tokB" [] 20 =
      (.error ⟨410, "This quiz has expired"⟩, [demoExpiredShare]) := by
  have h1 := (C4_share_gating [demoInactiveShare] "tokA" 20 []).1 (by decide)
  have h2 := (C4_share_gating [demoExpiredShare] "tokB" 20 []).2
    demoExpiredShare 10 rfl rfl (by decide)
  exact ⟨h1.1, h1.2, h2.1, h2.2.1, h2.2.2⟩

/-! ### Claim C7 -/

/-- C7: for every question count in 1..20 with mixed type, the computed
split sums to the question count, its multiple-choice part equals the
floor of 0.7 times the count (the value before the both-nonempty
adjustment, which never fires on this range), both parts are at least 1
whenever the count is at least 2, and count 5 splits as (3, 2). -/
theorem C7_mixed_split (n : Nat) (h1 : 1 ≤ n) (h2 : n ≤ 20) :
    (mixedSplit n).1 + (mixedSplit n).2 = n ∧
    (mixedSplit n).1 = ⌊(7 : ℚ) / 10 * (n : ℚ)⌋₊ ∧
    (2 ≤ n → 1 ≤ (mixedSplit n).1 ∧ 1 ≤ (mixedSplit n).2) ∧
    (n = 5 → mixedSplit n = (3, 2)) := by
  rw [floorSevenTenths]
  interval_cases n <;> decide

/-- C7 witness: the documented scenario, a five-question mixed quiz, splits
as 3 multiple-choice plus 2 open-ended. -/
theorem C7_mixed_split_witness :
    1 ≤ 5 ∧ 5 ≤ 20 ∧ mixedSplit 5 = (3, 2) :=
  ⟨by decide, by decide, (C7_mixed_split 5 (by decide) (by decide)).2.2.2 rfl⟩

/-! ### Claim C8 -/

/-- C8: the generation tolerance policy truncates an over-long AI question
list to the requested count and accepts a short one unchanged, so a
non-empty AI result and a positive requested count always leave between 1
and question_count questions. -/
theorem C8_count_tolerance (qs : List StoredQuestion) (qc : Nat)
    (hne : 1 ≤ qs.length) (hqc : 1 ≤ qc) :
    (qc < qs.length → applyCountTolerance qs qc = qs.take qc) ∧
    (qs.length ≤ qc → applyCountTolerance qs qc = qs) ∧
    1 ≤ (applyCountTolerance qs qc).length ∧
    (applyCountTolerance qs qc).length ≤ qc := by
  unfold applyCountTolerance
  by_cases h : qc < qs.length
  · rw [if_pos h]
    refine ⟨fun _ => rfl, fun hle => absurd h (by omega), ?_, ?_⟩
    · rw [List.length_take]; omega
    · rw [List.length_take]; omega
  · rw [if_neg h]
    exact ⟨fun hlt => absurd hlt h, fun _ => rfl, hne, by omega⟩

/-- C8 witness: three AI questions against a requested count of 2 are
truncated to the first 2. -/
theorem C8_count_tolerance_witness :
    1 ≤ demoThreeQuestions.length ∧ (1 : Nat) ≤ 2 ∧
    applyCountTolerance demoThreeQuestions 2 = demoThreeQuestions.take 2 ∧
    (applyCountTolerance demoThreeQuestions 2).length = 2 := by
  have h := C8_count_tolerance demoThreeQuestions 2 (by decide) (by decide)
  refine ⟨by decide, by decide, h.1 (by decide), ?_⟩
  rw [h.1 (by decide)]
  decide

/-! ### Claim C5 -/

/-- C5 counterexample: user 2 attempting to download user 1's stored quiz
result (and user 1's quiz known only through the quiz_results table)
receives NotFound 404, not Forbidden 403 as the claim states — the
user-scoped SQL lookups cannot distinguish "absent" from "owned by someone
else". -/
theorem C5_ownership_counterexample :
    exceptStatus (download_quiz_results [demoResultRow] 2 1 "json") = some 404 ∧
    exceptStatus (download_quiz_results [demoResultRow] 2 1 "json") ≠ some 403 ∧
    exceptStatus (download_quiz_questions [] [demoResultRow] 2 "qz5" "json") = some 404 ∧
    exceptStatus (download_quiz_questions [] [demoResultRow] 2 "qz5" "json") ≠ some 403 := by
  refine ⟨?_, ?_, ?_, ?_⟩ <;> decide

/-- C5 (amended): a non-owner's submit, download, and delete attempts all
fail without returning any entity content: operations resolving through the
in-memory registry (submit, quiz delete, quiz download while registered)
and share deletion fail with 403 Forbidden, while the user-scoped database
lookups (quiz download of a stored result, result download) fail with 404
NotFound. -/
theorem C5_ownership_isolation (storage : QuizStorage) (db results : List QuizResultRow)
    (shares : List SharedQuizRow) (A B : Nat) (quizId : String) (resultId : Nat)
    (token : String) (format : String) (hAB : A ≠ B)
    (hfmt : allowedFormats.contains format = true) :
    (∀ entry, lookupStorage storage quizId = some entry → entry.user_id = A →
      (∀ ai, submit_quiz storage db B quizId ai =
        (.error ⟨403, "Not authorized to submit this quiz"⟩, storage, db)) ∧
      delete_quiz storage B quizId =
        (.error ⟨403, "Not authorized to delete this quiz"⟩, storage) ∧
      download_quiz_questions storage results B quizId format =
        .error ⟨403, "Not authorized to download this quiz"⟩) ∧
    (lookupStorage storage quizId = none →
      (∀ r ∈ results, r.quiz_id = quizId → r.user_id = A) →
      download_quiz_questions storage results B quizId format =
        .error ⟨404, "Quiz not found"⟩) ∧
    ((∀ r ∈ results, r.id = resultId → r.user_id = A) →
      download_quiz_results results B resultId format =
        .error ⟨404, "Quiz result not found"⟩) ∧
    (∀ s, shares.find? (fun x => x.share_token == token) = some s → s.user_id = A →
      delete_shared_quiz shares B token =
        (.error ⟨403, "Not authorized to delete this shared quiz"⟩, shares)) := by
  refine ⟨?_, ?_, ?_, ?_⟩
  · intro entry hq hA
    have hne : entry.user_id ≠ B := by rw [hA]; exact hAB
    refine ⟨?_, ?_, ?_⟩
    · intro ai
      simp only [submit_quiz, hq]
      rw [if_pos hne]
    · simp only [delete_quiz, hq]
      rw [if_pos hne]
    · simp only [download_quiz_questions, hq]
      rw [if_neg (not_not_intro hfmt), if_pos hne]
  · intro hnone hAll
    have hfind : results.find? (fun r => r.quiz_id == quizId && r.user_id == B) = none := by
      rw [List.find?_eq_none]
      intro r hr
      by_cases hqz : r.quiz_id = quizId
      · simp [hqz, hAll r hr hqz]
        exact hAB
      · simp [hqz]
    simp only [download_quiz_questions, hnone, hfind]
    rw [if_neg (not_not_intro hfmt)]
  · intro hAll
    have hfind : results.find? (fun r => r.id == resultId && r.user_id == B) = none := by
      rw [List.find?_eq_none]
      intro r hr
      by_cases hid : r.id = resultId
      · simp [hid, hAll r hr hid]
        exact hAB
      · simp [hid]
    simp only [download_quiz_results, hfind]
    rw [if_neg (not_not_intro hfmt)]
  · intro s hfind hA
    have hne : s.user_id ≠ B := by rw [hA]; exact hAB
    simp only [delete_shared_quiz, hfind]
    rw [if_pos hne]

/-- C5 witness: with user 1 owning a registered quiz, a stored result and a
share, user 2's six access attempts produce exactly the amended statuses
and no content. -/
theorem C5_ownership_isolation_witness :
    submit_quiz demoStorage [] 2 "quiz1" (.error "x") =
      (.error ⟨403, "Not authorized to submit this quiz"⟩, demoStorage, []) ∧
    delete_quiz demoStorage 2 "quiz1" =
      (.error ⟨403, "Not authorized to delete this quiz"⟩, demoStorage) ∧
    download_quiz_questions demoStorage [demoResultRow] 2 "quiz1" "json" =
      .error ⟨403, "Not authorized to download this quiz"⟩ ∧
    download_quiz_questions [] [demoResultRow] 2 "qz5" "json" =
      .error ⟨404, "Quiz not found"⟩ ∧
    download_quiz_results [demoResultRow] 2 1 "json" =
      .error ⟨404, "Quiz result not found"⟩ ∧
    delete_shared_quiz [demoLiveShare] 2 "tk10" =
      (.error ⟨403, "Not authorized to delete this shared quiz"⟩, [demoLiveShare]) := by
  have h := C5_ownership_isolation demoStorage [] [demoResultRow] [demoLiveShare]
    1 2 "quiz1" 1 "tk10" "json" (by decide) (by decide)
  have g := C5_ownership_isolation [] [] [demoResultRow] [] 1 2 "qz5" 1 "tk10" "json"
    (by decide) (by decide)
  obtain ⟨ha, -, hc, hd⟩ := h
  obtain ⟨-, gb, -, -⟩ := g
  have h1 := ha demoEntry rfl rfl
  exact ⟨h1.1 (.error "x"), h1.2.1, h1.2.2, gb rfl (by decide), hc (by decide),
    hd demoLiveShare rfl rfl⟩

/-! ### Claim C9 -/

/-- C9 counterexample: a first authenticated submission of quiz "quiz1"
succeeds and persists one row, but a second submission of the very same
quiz id — which the claim says "also succeeds and creates a further new
result row" — fails with a 500 (the UNIQUE constraint on
quiz_results.quiz_id fires at commit) and leaves the table at one row. -/
theorem C9_resubmission_counterexample :
    exceptStatus (submit_quiz demoStorage [] 1 "quiz1" (.ok demoCorrectionData)).1 = none ∧
    (submit_quiz demoStorage [] 1 "quiz1" (.ok demoCorrectionData)).2.2.length = 1 ∧
    exceptStatus (submit_quiz demoStorage
      ((submit_quiz demoStorage [] 1 "quiz1" (.ok demoCorrectionData)).2.2)
      1 "quiz1" (.ok demoCorrectionData)).1 = some 500 ∧
    (submit_quiz demoStorage
      ((submit_quiz demoStorage [] 1 "quiz1" (.ok demoCorrectionData)).2.2)
      1 "quiz1" (.ok demoCorrectionData)).2.2.length = 1 := by
  refine ⟨rfl, rfl, rfl, rfl⟩

/-- C9 (amended): a successful authenticated submission persists a new
QuizResult row and leaves the session-registry entry unchanged, so a
second submission of the same quiz id is attempted — but it hits the
UNIQUE constraint on quiz_results.quiz_id, fails with a 500, and persists
nothing further. -/
theorem C9_resubmission_unique_conflict (storage : QuizStorage)
    (db : List QuizResultRow) (userId : Nat) (quizId : String)
    (cd : CorrectionData) (entry : QuizStorageEntry)
    (hq : lookupStorage storage quizId = some entry)
    (ho : entry.user_id = userId) :
    (db.any (fun r => r.quiz_id == quizId) = false →
      submit_quiz storage db userId quizId (.ok cd) =
        (.ok (mkSubmitResponse quizId cd), storage,
         db ++ [mkResultRow db userId quizId entry cd])) ∧
    (db.any (fun r => r.quiz_id == quizId) = true →
      submit_quiz storage db userId quizId (.ok cd) =
        (.error ⟨500,
          "Failed to correct quiz: UNIQUE constraint failed: quiz_results.quiz_id"⟩,
         storage, db)) := by
  constructor
  · intro hdup
    simp only [submit_quiz, hq]
    rw [if_neg (show ¬entry.user_id ≠ userId by simp [ho]), if_neg (by simp [hdup])]
  · intro hdup
    simp only [submit_quiz, hq]
    rw [if_neg (show ¬entry.user_id ≠ userId by simp [ho]), if_pos hdup]

/-- C9 witness: the concrete two-submission run of the counterexample,
derived from the amended theorem: first submission appends the row and
leaves the registry as it was, second submission errors with 500 and the
table is unchanged. -/
theorem C9_resubmission_witness :
    submit_quiz demoStorage [] 1 "quiz1" (.ok demoCorrectionData) =
      (.ok (mkSubmitResponse "quiz1" demoCorrectionData), demoStorage,
       [mkResultRow [] 1 "quiz1" demoEntry demoCorrectionData]) ∧
    submit_quiz demoStorage [mkResultRow [] 1 "quiz1" demoEntry demoCorrectionData]
      1 "quiz1" (.ok demoCorrectionData) =
      (.error ⟨500,
        "Failed to correct quiz: UNIQUE constraint failed: quiz_results.quiz_id"⟩,
       demoStorage, [mkResultRow [] 1 "quiz1" demoEntry demoCorrectionData]) := by
  have h1 := (C9_resubmission_unique_conflict demoStorage [] 1 "quiz1"
    demoCorrectionData demoEntry rfl rfl).1 rfl
  have h2 := (C9_resubmission_unique_conflict demoStorage
    [mkResultRow [] 1 "quiz1" demoEntry demoCorrectionData] 1 "quiz1"
    demoCorrectionData demoEntry rfl rfl).2 rfl
  exact ⟨by simpa using h1, h2⟩

/-! ### Claim C10 -/

/-- C10: for every anonymous shared-quiz submission that passes the
active/expiry gate, the corrections are exactly the grading of the matched
submitted answers (in submission order, duplicates each graded), every
answer whose question id matches no stored question grades to none (it is
silently dropped), and total_questions is the number of matched submitted
answers. -/
theorem C10_unmatched_answers_dropped (shares : List SharedQuizRow) (token : String)
    (now : Int) (answers : List UserAnswer) (s : SharedQuizRow)
    (hfind : shares.find? (sharedQuery token) = some s)
    (hexp : sharedExpired s now = false) :
    submit_shared_quiz shares token answers now =
      (.ok (mkSharedResponse token s answers),
       shares.map (fun r =>
         if r.id == s.id then { r with completion_count := r.completion_count + 1 }
         else r)) ∧
    (mkSharedResponse token s answers).corrections =
      answers.filterMap (gradeAnswer s.correct_answers_data) ∧
    (mkSharedResponse token s answers).total_questions =
      (answers.filterMap (gradeAnswer s.correct_answers_data)).length ∧
    (∀ a, findQuestion s.correct_answers_data a.question_id = none →
      gradeAnswer s.correct_answers_data a = none) := by
  refine ⟨?_, rfl, rfl, ?_⟩
  · simp only [submit_shared_quiz, hfind]
    rw [if_neg (by simp [hexp])]
  · intro a ha
    unfold gradeAnswer
    rw [ha]

/-- C10 witness: a share holding 3 questions, submitted with two answers
for q1 and one for the unknown id q9, grades exactly 2 corrections (the
duplicate pair), drops the q9 answer without error, and reports
total_questions 2 — smaller than the share's stored question count 3. -/
theorem C10_unmatched_answers_witness :
    respOf (submit_shared_quiz [demoLiveShare] "tk10" demoSharedAnswers 0) =
      some (mkSharedResponse "tk10" demoLiveShare demoSharedAnswers) ∧
    (mkSharedResponse "tk10" demoLiveShare demoSharedAnswers).total_questions = 2 ∧
    (mkSharedResponse "tk10" demoLiveShare demoSharedAnswers).corrections.length = 2 ∧
    demoSharedAnswers.length = 3 ∧
    demoLiveShare.question_count = 3 ∧
    gradeAnswer demoLiveShare.correct_answers_data ⟨"q9", "B"⟩ = none := by
  have h := C10_unmatched_answers_dropped [demoLiveShare] "tk10" 0 demoSharedAnswers
    demoLiveShare rfl rfl
  refine ⟨?_, ?_, ?_, rfl, rfl, h.2.2.2 ⟨"q9", "B"⟩ rfl⟩
  · simp [respOf, h.1]
  · rw [h.2.2.1]
    rfl
  · rw [h.2.1]
    rfl
